import Mathlib

/-!
Verification development for the FTP-to-Telegram video pipeline script
(`ftp_to_telegram.py`).  The transcode-and-validate stage
(`convert_250_to_mp4`) is embedded shallowly: every outcome of an external
tool invocation or filesystem operation is an explicit input (`Env`), and
the decision logic of the script is translated to pure functions over it.
Python floats are idealised as rationals; Python ints as `ℤ`.
-/

/-- Model of Python `str.lower()` (character-wise lowering of the path). -/
def lowerStr (s : String) : String := ⟨s.data.map Char.toLower⟩

/-- Model of Python `str.endswith(suffix)`. -/
def endsWithStr (s suff : String) : Bool := suff.data.isSuffixOf s.data

/-- Accepted source file extensions (`ALLOWED_EXTS` in the script). -/
def ALLOWED_EXTS : List String := [".250", ".265"]

/-- Extension filter applied by the main loop:
`any(fname.lower().endswith(ext) for ext in ALLOWED_EXTS)`. -/
def isAllowedExt (fname : String) : Bool :=
  ALLOWED_EXTS.any (fun e => endsWithStr (lowerStr fname) e)

/-- Model of Python `round()`: nearest integer, ties to even. -/
def pyRound (q : ℚ) : ℤ :=
  if q - (⌊q⌋ : ℚ) < 1/2 then ⌊q⌋
  else if 1/2 < q - (⌊q⌋ : ℚ) then ⌊q⌋ + 1
  else if ⌊q⌋ % 2 = 0 then ⌊q⌋ else ⌊q⌋ + 1

/-- Renders a nonnegative count of thousandths with three decimal digits. -/
def fmt3core (n : ℕ) : String :=
  toString (n / 1000) ++ "." ++
    (if n % 1000 < 10 then "00" ++ toString (n % 1000)
     else if n % 1000 < 100 then "0" ++ toString (n % 1000)
     else toString (n % 1000))

/-- Model of the Python fixed-point rendering `f"{q:.3f}"`. -/
def fmt3 (q : ℚ) : String :=
  if pyRound (q * 1000) < 0 then "-" ++ fmt3core (pyRound (q * 1000)).natAbs
  else fmt3core (pyRound (q * 1000)).toNat

/-- `format_fps_value` from the script: a `None` rate renders as "25"; a rate
strictly within 1e-3 of its rounding renders as that integer; anything else
renders with three decimal digits. -/
def format_fps_value : Option ℚ → String
  | none => "25"
  | some fps =>
      if |fps - (pyRound fps : ℚ)| < 1/1000 then toString (pyRound fps)
      else fmt3 fps

/-- Which of the three competing sources decided the frame rate. -/
inductive FpsSource where
  | configured
  | detected
  | fallback
deriving DecidableEq

/-- The resolved frame-rate plan for one job. -/
structure FrameRatePlan where
  value : ℚ
  source : FpsSource
deriving DecidableEq

/-- The detected-or-fallback part of the rate resolution (the `elif
detected_fps` / `else` branches of the script). -/
def resolveDetected : Option ℚ → FrameRatePlan
  | some d => if d != 0 then ⟨d, FpsSource.detected⟩ else ⟨25, FpsSource.fallback⟩
  | none => ⟨25, FpsSource.fallback⟩

/-- Frame-rate resolution: a truthy, positive `TARGET_FPS` wins; otherwise a
truthy detected rate; otherwise the hard-coded 25. -/
def resolve (target : Option ℤ) (detected : Option ℚ) : FrameRatePlan :=
  match target with
  | some t =>
      if t != 0 && decide (0 < t) then ⟨(t : ℚ), FpsSource.configured⟩
      else resolveDetected detected
  | none => resolveDetected detected

/-- The first-pass ffmpeg command built by the script.  The input-framing
block `-f hevc -framerate fps` is inserted only when the lowered source path
ends in ".265", ".h265" or ".hevc" and no audio was detected. -/
def build_cmd_recode (src_path fps_str : String) (has_audio : Bool) (dst_path : String) :
    List String :=
  ["ffmpeg", "-y", "-fflags", "+genpts"]
    ++ (if (endsWithStr (lowerStr src_path) ".265" || endsWithStr (lowerStr src_path) ".h265"
            || endsWithStr (lowerStr src_path) ".hevc") && !has_audio
        then ["-f", "hevc", "-framerate", fps_str] else [])
    ++ ["-i", src_path]
    ++ ["-c:v", "libx264", "-preset", "fast", "-crf", "23", "-pix_fmt", "yuv420p",
        "-r", fps_str, "-filter:v", "fps=" ++ fps_str, "-fps_mode", "cfr"]
    ++ (if has_audio then ["-c:a", "aac", "-b:a", "128k"] else ["-an"])
    ++ ["-avoid_negative_ts", "make_zero", "-movflags", "+faststart", dst_path]

/-- Scans a command for the consecutive input-framing block
`-f hevc -framerate fps`. -/
def hasFramingHintAt (fps : String) : List String → Bool
  | a :: b :: c :: d :: rest =>
      (a == "-f" && b == "hevc" && c == "-framerate" && d == fps)
        || hasFramingHintAt fps (b :: c :: d :: rest)
  | _ => false

/-- Outcomes of every external probe, tool invocation and filesystem
operation performed while converting one file.  `encode_out_exists` and
`encode_out_size` describe the file at the output path after the first
pass; `fix_out_exists` describes the `.fixed.mp4` temporary after the
corrective pass; `replace_ok` is whether `os.replace` succeeds. -/
structure Env where
  detected_fps : Option ℚ
  has_audio : Bool
  encode_rc : ℤ
  encode_out_exists : Bool
  encode_out_size : ℕ
  frames : Option ℤ
  out_duration : Option ℚ
  fix_rc : ℤ
  fix_out_exists : Bool
  replace_ok : Bool

/-- First-pass success test of the script:
`p2.returncode == 0 and os.path.exists(dst_path)`. -/
def encode_ok (e : Env) : Bool :=
  (e.encode_rc == 0) && e.encode_out_exists

/-- Follows the spec's words (refinement side, for comparison only): the
encoder "must exit zero and leave a non-empty file at the declared output
path to count as success". -/
def encode_success_per_spec (e : Env) : Bool :=
  (e.encode_rc == 0) && e.encode_out_exists && decide (0 < e.encode_out_size)

/-- Result of the duration-validation stage. -/
inductive ValidationResult where
  | skipped
  | result (expected actual multiplier : ℚ) (withinTolerance : Bool)
deriving DecidableEq

/-- Duration validation, lines 212-219 of the script: truthy frame count,
truthy output duration and a truthy positive preferred rate are required;
then `expected = frames / preferred` and, when the actual duration is
positive, `multiplier = expected / actual`, else 1.  `withinTolerance`
records whether the 5% band check `abs(multiplier - 1.0) > 0.05` does NOT
trigger. -/
def validate (frames : Option ℤ) (out_duration : Option ℚ) (preferred : ℚ) :
    ValidationResult :=
  match frames, out_duration with
  | some n, some d =>
      if n != 0 && d != 0 && (preferred != 0 && decide (0 < preferred)) then
        if 0 < (n : ℚ) / preferred then
          ValidationResult.result ((n : ℚ) / preferred) d
            (if 0 < d then ((n : ℚ) / preferred) / d else 1)
            (decide (|(if 0 < d then ((n : ℚ) / preferred) / d else 1) - 1| ≤ 1/20))
        else ValidationResult.skipped
      else ValidationResult.skipped
  | _, _ => ValidationResult.skipped

/-- Outcome of the corrective second pass. -/
inductive CorrectionOutcome where
  | replaced
  | replaceFailed
  | fixFailed
deriving DecidableEq

/-- The corrective second pass: run the fix encode; when it exits zero and
left a file at the temporary path, attempt `os.replace`. -/
def correct (e : Env) : CorrectionOutcome :=
  if e.fix_rc == 0 && e.fix_out_exists then
    (if e.replace_ok then CorrectionOutcome.replaced else CorrectionOutcome.replaceFailed)
  else CorrectionOutcome.fixFailed

/-- Whether the temporary `.fixed.mp4` file is still present at its
temporary path when the correction stage returns: a successful replace
moves it away; every other path leaves whatever the fix encode wrote. -/
def tmp_present_after_correction (e : Env) : Bool :=
  if e.fix_rc == 0 && e.fix_out_exists then !e.replace_ok else e.fix_out_exists

/-- Which bytes sit at the output path when the conversion returns. -/
inductive DstContent where
  | original
  | corrected
deriving DecidableEq

/-- Everything observable about one run of `convert_250_to_mp4`. -/
structure ConvertResult where
  ok : Bool
  has_audio : Bool
  cmd : List String
  validation : ValidationResult
  correction : Option CorrectionOutcome
  dstContent : DstContent
  tmpPresent : Bool

/-- The whole conversion pipeline of the script: resolve the rate, build and
run the first-pass command, validate the duration and conditionally run the
corrective pass.  The returned flag is `False` exactly when the first pass
failed; every later condition degrades without failing the job. -/
def convert_250_to_mp4 (target : Option ℤ) (src_path dst_path : String) (e : Env) :
    ConvertResult :=
  let plan := resolve target e.detected_fps
  let fps_str := format_fps_value (some plan.value)
  let cmd := build_cmd_recode src_path fps_str e.has_audio dst_path
  if encode_ok e then
    match validate e.frames e.out_duration plan.value with
    | ValidationResult.skipped =>
        ⟨true, e.has_audio, cmd, ValidationResult.skipped, none, DstContent.original, false⟩
    | ValidationResult.result exp act m w =>
        if w then
          ⟨true, e.has_audio, cmd, ValidationResult.result exp act m w, none,
            DstContent.original, false⟩
        else
          ⟨true, e.has_audio, cmd, ValidationResult.result exp act m w, some (correct e),
            (match correct e with
              | CorrectionOutcome.replaced => DstContent.corrected
              | _ => DstContent.original),
            tmp_present_after_correction e⟩
  else ⟨false, e.has_audio, cmd, ValidationResult.skipped, none, DstContent.original, false⟩

/-- Bare .250 source, no audio, nothing probed, first pass succeeds. -/
def env250 : Env := ⟨none, false, 0, true, 100, none, none, 0, false, true⟩

/-- First pass exits zero and leaves an EMPTY file at the output path. -/
def envEmptyOut : Env := ⟨none, false, 0, true, 0, none, none, 0, false, true⟩

/-- Scenario C: 750 source frames, detected rate 25, output measured at 36s;
the corrective pass succeeds and the replace succeeds. -/
def envScenC : Env := ⟨some 25, false, 0, true, 100, some 750, some 36, 0, true, true⟩

/-- Boundary multiplier 21/20: 21 frames at rate 20 with a 1s output. -/
def envTol : Env := ⟨some 20, false, 0, true, 100, some 21, some 1, 0, true, true⟩

/-- Multiplier 1051/1000: 1051 frames at rate 1000 with a 1s output. -/
def envTol2 : Env := ⟨some 1000, false, 0, true, 100, some 1051, some 1, 0, true, true⟩

/-- Correction is triggered, the fix encode succeeds, but the replace fails. -/
def envReplaceFail : Env := ⟨some 25, false, 0, true, 100, some 750, some 36, 0, true, false⟩

/-- Correction is triggered but the fix encode fails leaving no file. -/
def envFixFail : Env := ⟨some 25, false, 0, true, 100, some 750, some 36, 1, false, true⟩

/-- No frame count could be probed, everything else is fine. -/
def envSkip : Env := ⟨some 30, true, 0, true, 100, none, some 36, 0, false, true⟩

theorem pyRound_intCast (n : ℤ) : pyRound (n : ℚ) = n := by
  unfold pyRound
  norm_num

theorem pyRound_close (q : ℚ) (n : ℤ) (h : |q - (n : ℚ)| < 1/1000) : pyRound q = n := by
  obtain ⟨h1, h2⟩ := abs_lt.mp h
  rcases le_or_lt (n : ℚ) q with hge | hlt
  · have hf : ⌊q⌋ = n := by
      rw [Int.floor_eq_iff]
      refine ⟨hge, ?_⟩
      linarith
    unfold pyRound
    rw [hf]
    have hr : q - (n : ℚ) < 1/2 := by linarith
    rw [if_pos hr]
  · have hf : ⌊q⌋ = n - 1 := by
      rw [Int.floor_eq_iff]
      constructor
      · push_cast
        linarith
      · push_cast
        linarith
    unfold pyRound
    rw [hf]
    have hr1 : ¬ (q - ((n - 1 : ℤ) : ℚ) < 1/2) := by
      push_cast
      intro hc
      linarith
    have hr2 : 1/2 < q - ((n - 1 : ℤ) : ℚ) := by
      push_cast
      linarith
    rw [if_neg hr1, if_pos hr2]
    omega

theorem format_fps_intCast (n : ℤ) : format_fps_value (some (n : ℚ)) = toString n := by
  simp only [format_fps_value]
  rw [pyRound_intCast]
  norm_num

theorem format_fps_25 : format_fps_value (some 25) = "25" := by
  have h := format_fps_intCast 25
  have h2 : ((25 : ℤ) : ℚ) = 25 := by norm_num
  rw [h2] at h
  rw [h]
  decide

theorem hasFramingHintAt_build (src fps dst : String) (audio : Bool) :
    hasFramingHintAt fps (build_cmd_recode src fps audio dst)
      = ((endsWithStr (lowerStr src) ".265" || endsWithStr (lowerStr src) ".h265"
          || endsWithStr (lowerStr src) ".hevc") && !audio) := by
  cases audio <;>
    cases h : (endsWithStr (lowerStr src) ".265" || endsWithStr (lowerStr src) ".h265"
        || endsWithStr (lowerStr src) ".hevc") <;>
      simp [build_cmd_recode, h, hasFramingHintAt]

theorem validate_some_some (n : ℤ) (d p : ℚ) :
    validate (some n) (some d) p
      = if n != 0 && d != 0 && (p != 0 && decide (0 < p)) then
          if 0 < (n : ℚ) / p then
            ValidationResult.result ((n : ℚ) / p) d
              (if 0 < d then ((n : ℚ) / p) / d else 1)
              (decide (|(if 0 < d then ((n : ℚ) / p) / d else 1) - 1| ≤ 1/20))
          else ValidationResult.skipped
        else ValidationResult.skipped := rfl

theorem validate_none_frames (o : Option ℚ) (p : ℚ) :
    validate none o p = ValidationResult.skipped := by
  cases o <;> rfl

theorem validate_none_duration (f : Option ℤ) (p : ℚ) :
    validate f none p = ValidationResult.skipped := by
  cases f <;> rfl

theorem validate_nonpos_rate (f : Option ℤ) (o : Option ℚ) (p : ℚ) (hp : p ≤ 0) :
    validate f o p = ValidationResult.skipped := by
  rcases f with _ | n
  · exact validate_none_frames o p
  rcases o with _ | d
  · exact validate_none_duration _ _
  unfold validate
  have hd : decide (0 < p) = false := by
    simp only [decide_eq_false_iff_not]
    intro hc
    linarith
  simp [hd]

theorem validate_within (f : Option ℤ) (o : Option ℚ) (p exp act m : ℚ) (w : Bool)
    (hv : validate f o p = ValidationResult.result exp act m w) :
    w = decide (|m - 1| ≤ 1/20) := by
  rcases f with _ | n
  · rw [validate_none_frames] at hv
    exact absurd hv (by simp)
  rcases o with _ | d
  · rw [validate_none_duration] at hv
    exact absurd hv (by simp)
  rw [validate_some_some] at hv
  by_cases h1 : (n != 0 && d != 0 && (p != 0 && decide (0 < p))) = true
  · rw [if_pos h1] at hv
    by_cases h2 : 0 < (n : ℚ) / p
    · rw [if_pos h2] at hv
      injection hv with e1 e2 e3 e4
      rw [← e4, e3]
    · rw [if_neg h2] at hv
      exact absurd hv (by simp)
  · rw [if_neg h1] at hv
    exact absurd hv (by simp)

theorem convert_ok_eq (t : Option ℤ) (s d : String) (e : Env) :
    (convert_250_to_mp4 t s d e).ok = encode_ok e := by
  unfold convert_250_to_mp4
  cases h : encode_ok e
  · simp [h]
  · simp only [h, if_true]
    cases hv : validate e.frames e.out_duration (resolve t e.detected_fps).value
    · simp [hv]
    · next exp act m w =>
        simp only [hv]
        cases w <;> simp

theorem resolve_none_none : resolve none none = ⟨25, FpsSource.fallback⟩ := rfl

theorem resolve_none_detected (d : ℚ) (hd : d ≠ 0) :
    resolve none (some d) = ⟨d, FpsSource.detected⟩ := by
  simp [resolve, resolveDetected, bne_iff_ne, hd]

theorem validate_pos (n : ℤ) (d p : ℚ) (hn : 0 < n) (hp : 0 < p) (hd : 0 < d) :
    validate (some n) (some d) p
      = ValidationResult.result ((n : ℚ) / p) d (((n : ℚ) / p) / d)
          (decide (|((n : ℚ) / p) / d - 1| ≤ 1/20)) := by
  rw [validate_some_some]
  have h1 : (n != 0 && d != 0 && (p != 0 && decide (0 < p))) = true := by
    simp only [Bool.and_eq_true, bne_iff_ne, decide_eq_true_eq]
    refine ⟨⟨by omega, by linarith⟩, by linarith, hp⟩
  rw [if_pos h1]
  have h2 : 0 < (n : ℚ) / p := by
    apply div_pos _ hp
    exact_mod_cast hn
  rw [if_pos h2, if_pos hd]

theorem validate_negdur (n : ℤ) (d p : ℚ) (hn : 0 < n) (hp : 0 < p) (hd : d < 0) :
    validate (some n) (some d) p
      = ValidationResult.result ((n : ℚ) / p) d 1 true := by
  rw [validate_some_some]
  have h1 : (n != 0 && d != 0 && (p != 0 && decide (0 < p))) = true := by
    simp only [Bool.and_eq_true, bne_iff_ne, decide_eq_true_eq]
    refine ⟨⟨by omega, by linarith⟩, by linarith, hp⟩
  rw [if_pos h1]
  have h2 : 0 < (n : ℚ) / p := by
    apply div_pos _ hp
    exact_mod_cast hn
  rw [if_pos h2, if_neg (not_lt.mpr (le_of_lt hd))]
  norm_num

theorem validate_zero_duration (n : ℤ) (p : ℚ) :
    validate (some n) (some 0) p = ValidationResult.skipped := by
  rw [validate_some_some]
  simp

theorem validate_scenC :
    validate (some 750) (some 36) 25 = ValidationResult.result 30 36 (5/6) false := by
  have h := validate_pos 750 36 25 (by norm_num) (by norm_num) (by norm_num)
  rw [h]
  have e1 : ((750 : ℤ) : ℚ) / 25 = 30 := by push_cast; norm_num
  rw [e1]
  have e2 : (30 : ℚ) / 36 = 5/6 := by norm_num
  rw [e2]
  have e3 : decide (|(5/6 : ℚ) - 1| ≤ 1/20) = false := by
    rw [decide_eq_false_iff_not, not_le]
    rw [show (5/6 : ℚ) - 1 = -(1/6) by norm_num, abs_neg,
      abs_of_pos (by norm_num : (0:ℚ) < 1/6)]
    norm_num
  rw [e3]

theorem convert_within (t : Option ℤ) (s d : String) (e : Env)
    (he : encode_ok e = true) (exp act m : ℚ)
    (hv : validate e.frames e.out_duration (resolve t e.detected_fps).value
            = ValidationResult.result exp act m true) :
    (convert_250_to_mp4 t s d e).ok = true ∧
    (convert_250_to_mp4 t s d e).correction = none ∧
    (convert_250_to_mp4 t s d e).dstContent = DstContent.original := by
  simp only [convert_250_to_mp4]
  rw [if_pos he, hv]
  exact ⟨rfl, rfl, rfl⟩

theorem convert_fix (t : Option ℤ) (s d : String) (e : Env)
    (he : encode_ok e = true) (exp act m : ℚ)
    (hv : validate e.frames e.out_duration (resolve t e.detected_fps).value
            = ValidationResult.result exp act m false) :
    (convert_250_to_mp4 t s d e).ok = true ∧
    (convert_250_to_mp4 t s d e).correction = some (correct e) ∧
    (convert_250_to_mp4 t s d e).tmpPresent = tmp_present_after_correction e ∧
    (convert_250_to_mp4 t s d e).validation = ValidationResult.result exp act m false ∧
    (convert_250_to_mp4 t s d e).dstContent
      = (match correct e with
          | CorrectionOutcome.replaced => DstContent.corrected
          | _ => DstContent.original) := by
  simp only [convert_250_to_mp4]
  rw [if_pos he, hv]
  exact ⟨rfl, rfl, rfl, rfl, rfl⟩

theorem convert_skipped (t : Option ℤ) (s d : String) (e : Env)
    (he : encode_ok e = true)
    (hv : validate e.frames e.out_duration (resolve t e.detected_fps).value
            = ValidationResult.skipped) :
    (convert_250_to_mp4 t s d e).ok = true ∧
    (convert_250_to_mp4 t s d e).correction = none ∧
    (convert_250_to_mp4 t s d e).dstContent = DstContent.original ∧
    (convert_250_to_mp4 t s d e).validation = ValidationResult.skipped ∧
    (convert_250_to_mp4 t s d e).tmpPresent = false := by
  simp only [convert_250_to_mp4]
  rw [if_pos he, hv]
  exact ⟨rfl, rfl, rfl, rfl, rfl⟩

theorem convert_encode_failed (t : Option ℤ) (s d : String) (e : Env)
    (he : encode_ok e = false) :
    (convert_250_to_mp4 t s d e).ok = false ∧
    (convert_250_to_mp4 t s d e).correction = none ∧
    (convert_250_to_mp4 t s d e).dstContent = DstContent.original := by
  simp only [convert_250_to_mp4]
  rw [if_neg (by rw [he]; exact Bool.false_ne_true)]
  exact ⟨rfl, rfl, rfl⟩

theorem validate_tol :
    validate (some 21) (some 1) 20 = ValidationResult.result (21/20) 1 (21/20) true := by
  have h := validate_pos 21 1 20 (by norm_num) (by norm_num) (by norm_num)
  rw [h]
  have e1 : ((21 : ℤ) : ℚ) / 20 = 21/20 := by push_cast; norm_num
  rw [e1]
  have e2 : (21/20 : ℚ) / 1 = 21/20 := by norm_num
  rw [e2]
  have e3 : decide (|(21/20 : ℚ) - 1| ≤ 1/20) = true := by
    rw [decide_eq_true_eq]
    rw [show (21/20 : ℚ) - 1 = 1/20 by norm_num,
      abs_of_pos (by norm_num : (0:ℚ) < 1/20)]
  rw [e3]

theorem validate_tol2 :
    validate (some 1051) (some 1) 1000
      = ValidationResult.result (1051/1000) 1 (1051/1000) false := by
  have h := validate_pos 1051 1 1000 (by norm_num) (by norm_num) (by norm_num)
  rw [h]
  have e1 : ((1051 : ℤ) : ℚ) / 1000 = 1051/1000 := by push_cast; norm_num
  rw [e1]
  have e2 : (1051/1000 : ℚ) / 1 = 1051/1000 := by norm_num
  rw [e2]
  have e3 : decide (|(1051/1000 : ℚ) - 1| ≤ 1/20) = false := by
    rw [decide_eq_false_iff_not, not_le]
    rw [show (1051/1000 : ℚ) - 1 = 51/1000 by norm_num,
      abs_of_pos (by norm_num : (0:ℚ) < 51/1000)]
    norm_num
  rw [e3]

theorem format_23999 : format_fps_value (some (23999/1000)) = "23.999" := by
  simp only [format_fps_value]
  have hf : pyRound ((23999 : ℚ)/1000) = 24 := by
    have hfl : ⌊(23999/1000 : ℚ)⌋ = 23 := by
      rw [Int.floor_eq_iff]
      norm_num
    unfold pyRound
    rw [hfl, if_neg (by norm_num), if_pos (by norm_num)]
    norm_num
  rw [hf]
  have habs : ¬ (|(23999/1000 : ℚ) - ((24 : ℤ) : ℚ)| < 1/1000) := by
    rw [show (23999/1000 : ℚ) - ((24 : ℤ) : ℚ) = -(1/1000) by push_cast; norm_num,
      abs_neg, abs_of_pos (by norm_num : (0:ℚ) < 1/1000)]
    norm_num
  rw [if_neg habs]
  unfold fmt3
  have hq : (23999/1000 : ℚ) * 1000 = ((23999 : ℤ) : ℚ) := by push_cast; norm_num
  rw [hq, pyRound_intCast, if_neg (by norm_num)]
  decide

theorem format_2997 : format_fps_value (some (2997/100)) = "29.970" := by
  simp only [format_fps_value]
  have hf : pyRound ((2997 : ℚ)/100) = 30 := by
    have hfl : ⌊(2997/100 : ℚ)⌋ = 29 := by
      rw [Int.floor_eq_iff]
      norm_num
    unfold pyRound
    rw [hfl, if_neg (by norm_num), if_pos (by norm_num)]
    norm_num
  rw [hf]
  have habs : ¬ (|(2997/100 : ℚ) - ((30 : ℤ) : ℚ)| < 1/1000) := by
    rw [show (2997/100 : ℚ) - ((30 : ℤ) : ℚ) = -(3/100) by push_cast; norm_num,
      abs_neg, abs_of_pos (by norm_num : (0:ℚ) < 3/100)]
    norm_num
  rw [if_neg habs]
  unfold fmt3
  have hq : (2997/100 : ℚ) * 1000 = ((29970 : ℤ) : ℚ) := by push_cast; norm_num
  rw [hq, pyRound_intCast, if_neg (by norm_num)]
  decide

theorem convert_cmd (t : Option ℤ) (s d : String) (e : Env) :
    (convert_250_to_mp4 t s d e).cmd
      = build_cmd_recode s (format_fps_value (some (resolve t e.detected_fps).value))
          e.has_audio d := by
  simp only [convert_250_to_mp4]
  cases he : encode_ok e
  · rw [if_neg Bool.false_ne_true]
  · rw [if_pos rfl]
    cases hv : validate e.frames e.out_duration (resolve t e.detected_fps).value
    · rfl
    · next exp act m w =>
        cases w
        · rfl
        · rfl

/-- C5: frame-rate resolution follows the stated precedence for all inputs:
a present, positive configured rate always yields the configured plan; when
the configured rate is absent or nonpositive, a present non-zero detected
rate yields the detected plan; otherwise the plan is the fallback at 25. -/
theorem claim5_resolve_precedence (c : Option ℤ) (d : Option ℚ) :
    (∀ k : ℤ, c = some k → 0 < k → resolve c d = ⟨(k : ℚ), FpsSource.configured⟩)
    ∧ ((c = none ∨ ∃ k, c = some k ∧ k ≤ 0) →
        ∀ q : ℚ, d = some q → q ≠ 0 → resolve c d = ⟨q, FpsSource.detected⟩)
    ∧ ((c = none ∨ ∃ k, c = some k ∧ k ≤ 0) → (d = none ∨ d = some 0) →
        resolve c d = ⟨25, FpsSource.fallback⟩) := by
  have hlow : ∀ k : ℤ, k ≤ 0 → resolve (some k) d = resolveDetected d := by
    intro k hk
    have h2 : decide (0 < k) = false := by
      simp only [decide_eq_false_iff_not]
      omega
    have hb : (k != 0 && decide (0 < k)) = false := by
      rw [h2, Bool.and_false]
    simp [resolve, hb]
  refine ⟨?_, ?_, ?_⟩
  · rintro k rfl hk
    have hb : (k != 0 && decide (0 < k)) = true := by
      simp only [Bool.and_eq_true, bne_iff_ne, decide_eq_true_eq]
      exact ⟨by omega, hk⟩
    simp [resolve, hb]
  · rintro hc q rfl hq
    have hstep : resolve c (some q) = resolveDetected (some q) := by
      rcases hc with rfl | ⟨k, rfl, hk⟩
      · rfl
      · exact hlow k hk
    rw [hstep]
    simp [resolveDetected, bne_iff_ne, hq]
  · rintro hc hd
    have hstep : resolve c d = resolveDetected d := by
      rcases hc with rfl | ⟨k, rfl, hk⟩
      · rfl
      · exact hlow k hk
    rw [hstep]
    rcases hd with rfl | rfl
    · rfl
    · simp [resolveDetected]

/-- Witness for C5: a configured rate of 30 beats a detected 29.97; with the
configured rate absent or zero a detected 29.97 wins; with nothing, 25. -/
theorem claim5_witness :
    resolve (some 30) (some (2997/100)) = ⟨((30 : ℤ) : ℚ), FpsSource.configured⟩
    ∧ resolve (some 0) (some (2997/100)) = ⟨(2997/100 : ℚ), FpsSource.detected⟩
    ∧ resolve none none = ⟨25, FpsSource.fallback⟩ := by
  refine ⟨?_, ?_, ?_⟩
  · exact (claim5_resolve_precedence (some 30) (some (2997/100))).1 30 rfl (by norm_num)
  · exact (claim5_resolve_precedence (some 0) (some (2997/100))).2.1
      (Or.inr ⟨0, rfl, le_refl 0⟩) (2997/100) rfl (by norm_num)
  · exact (claim5_resolve_precedence none none).2.2 (Or.inl rfl) (Or.inl rfl)

/-- C7: when the probed frame count is absent, or the probed output duration
is absent, or the resolved rate is not positive, validation is skipped, no
correction is attempted and the first-pass output is delivered unchanged. -/
theorem claim7_missing_skips (t : Option ℤ) (s d : String) (e : Env)
    (h : e.frames = none ∨ e.out_duration = none
          ∨ (resolve t e.detected_fps).value ≤ 0) :
    validate e.frames e.out_duration (resolve t e.detected_fps).value
        = ValidationResult.skipped
    ∧ (convert_250_to_mp4 t s d e).correction = none
    ∧ (convert_250_to_mp4 t s d e).dstContent = DstContent.original := by
  have hval : validate e.frames e.out_duration (resolve t e.detected_fps).value
      = ValidationResult.skipped := by
    rcases h with h | h | h
    · rw [h]
      exact validate_none_frames _ _
    · rw [h]
      exact validate_none_duration _ _
    · exact validate_nonpos_rate _ _ _ h
  refine ⟨hval, ?_⟩
  cases he : encode_ok e
  · exact ⟨(convert_encode_failed t s d e he).2.1, (convert_encode_failed t s d e he).2.2⟩
  · exact ⟨(convert_skipped t s d e he hval).2.1, (convert_skipped t s d e he hval).2.2.1⟩

/-- Witness for C7: an absent frame count with every other probe fine causes
the skip and an unchanged delivery. -/
theorem claim7_witness :
    (envSkip.frames = none ∨ envSkip.out_duration = none
      ∨ (resolve none envSkip.detected_fps).value ≤ 0)
    ∧ validate envSkip.frames envSkip.out_duration
        (resolve none envSkip.detected_fps).value = ValidationResult.skipped
    ∧ (convert_250_to_mp4 none "rec.250" "rec.mp4" envSkip).correction = none
    ∧ (convert_250_to_mp4 none "rec.250" "rec.mp4" envSkip).dstContent
        = DstContent.original := by
  have h := claim7_missing_skips none "rec.250" "rec.mp4" envSkip (Or.inl rfl)
  exact ⟨Or.inl rfl, h.1, h.2.1, h.2.2⟩

/-- C10: a present frame count equal to 0 is falsy in the script's truthiness
test, so validation is skipped exactly as if the frame count were absent. -/
theorem claim10_zero_frames (o : Option ℚ) (r : ℚ) :
    validate (some 0) o r = ValidationResult.skipped
    ∧ validate (some 0) o r = validate none o r := by
  have h1 : validate (some 0) o r = ValidationResult.skipped := by
    rcases o with _ | d
    · exact validate_none_duration _ _
    · rw [validate_some_some]
      simp
  exact ⟨h1, by rw [h1, validate_none_frames]⟩

/-- C8: whenever the first pass succeeds the conversion reports success, and
unless the correction fully succeeded (fix encode plus replace) the original
first-pass output is what sits at the output path. -/
theorem claim8_encode_success_propagates (t : Option ℤ) (s d : String) (e : Env)
    (he : encode_ok e = true) :
    (convert_250_to_mp4 t s d e).ok = true
    ∧ ((convert_250_to_mp4 t s d e).correction ≠ some CorrectionOutcome.replaced →
        (convert_250_to_mp4 t s d e).dstContent = DstContent.original) := by
  constructor
  · rw [convert_ok_eq]
    exact he
  · intro hne
    rcases hv : validate e.frames e.out_duration (resolve t e.detected_fps).value
      with _ | ⟨exp, act, m, w⟩
    · exact (convert_skipped t s d e he hv).2.2.1
    · cases w
      · have hf := convert_fix t s d e he exp act m hv
        rw [hf.2.2.2.2]
        cases hc : correct e
        · exact absurd (by rw [hf.2.1, hc]) hne
        · rfl
        · rfl
      · exact (convert_within t s d e he exp act m hv).2.2

/-- Witness for C8: the fix encode fails but the job still reports success
and the original output stays in place. -/
theorem claim8_witness :
    encode_ok envFixFail = true
    ∧ (convert_250_to_mp4 none "rec.250" "rec.mp4" envFixFail).ok = true
    ∧ (convert_250_to_mp4 none "rec.250" "rec.mp4" envFixFail).dstContent
        = DstContent.original := by
  have he : encode_ok envFixFail = true := by simp [encode_ok, envFixFail]
  have h := claim8_encode_success_propagates none "rec.250" "rec.mp4" envFixFail he
  refine ⟨he, h.1, h.2 ?_⟩
  have hv : validate envFixFail.frames envFixFail.out_duration
      (resolve none envFixFail.detected_fps).value
        = ValidationResult.result 30 36 (5/6) false := by
    show validate (some 750) (some 36) (resolve none (some 25)).value
        = ValidationResult.result 30 36 (5/6) false
    rw [resolve_none_detected 25 (by norm_num)]
    exact validate_scenC
  have hf := convert_fix none "rec.250" "rec.mp4" envFixFail he 30 36 (5/6) hv
  rw [hf.2.1]
  have hc : correct envFixFail = CorrectionOutcome.fixFailed := by
    simp [correct, envFixFail]
  rw [hc]
  simp

/-- C3: for a validated job the corrective pass is attempted exactly when
the multiplier deviates from 1 by strictly more than 0.05. -/
theorem claim3_tolerance_boundary (t : Option ℤ) (s d : String) (e : Env)
    (exp act m : ℚ) (w : Bool)
    (he : encode_ok e = true)
    (hv : validate e.frames e.out_duration (resolve t e.detected_fps).value
            = ValidationResult.result exp act m w) :
    ((convert_250_to_mp4 t s d e).correction.isSome = true ↔ 1/20 < |m - 1|) := by
  have hw := validate_within _ _ _ _ _ _ _ hv
  cases hb : decide (|m - 1| ≤ 1/20)
  · rw [hb] at hw
    subst hw
    have hf := convert_fix t s d e he exp act m hv
    rw [hf.2.1]
    have hgt : 1/20 < |m - 1| := not_le.mp (of_decide_eq_false hb)
    exact ⟨fun _ => hgt, fun _ => rfl⟩
  · rw [hb] at hw
    subst hw
    have hwi := convert_within t s d e he exp act m hv
    rw [hwi.2.1]
    have hle : |m - 1| ≤ 1/20 := of_decide_eq_true hb
    exact ⟨fun hcon => absurd hcon (by simp), fun hcon => absurd hcon (not_lt.mpr hle)⟩

/-- Witness for C3: a multiplier of exactly 21/20 stays inside the band and
triggers no correction, while 1051/1000 exceeds it and does. -/
theorem claim3_witness :
    (convert_250_to_mp4 none "b.250" "b.mp4" envTol).correction.isSome = false
    ∧ (convert_250_to_mp4 none "b.250" "b.mp4" envTol2).correction.isSome = true := by
  have he1 : encode_ok envTol = true := by simp [encode_ok, envTol]
  have hv1 : validate envTol.frames envTol.out_duration
      (resolve none envTol.detected_fps).value
        = ValidationResult.result (21/20) 1 (21/20) true := by
    show validate (some 21) (some 1) (resolve none (some 20)).value
        = ValidationResult.result (21/20) 1 (21/20) true
    rw [resolve_none_detected 20 (by norm_num)]
    exact validate_tol
  have h1 := claim3_tolerance_boundary none "b.250" "b.mp4" envTol
    (21/20) 1 (21/20) true he1 hv1
  have he2 : encode_ok envTol2 = true := by simp [encode_ok, envTol2]
  have hv2 : validate envTol2.frames envTol2.out_duration
      (resolve none envTol2.detected_fps).value
        = ValidationResult.result (1051/1000) 1 (1051/1000) false := by
    show validate (some 1051) (some 1) (resolve none (some 1000)).value
        = ValidationResult.result (1051/1000) 1 (1051/1000) false
    rw [resolve_none_detected 1000 (by norm_num)]
    exact validate_tol2
  have h2 := claim3_tolerance_boundary none "b.250" "b.mp4" envTol2
    (1051/1000) 1 (1051/1000) false he2 hv2
  constructor
  · have hno : ¬ (1/20 < |(21/20 : ℚ) - 1|) := by
      rw [show (21/20 : ℚ) - 1 = 1/20 by norm_num,
        abs_of_pos (by norm_num : (0:ℚ) < 1/20)]
      norm_num
    cases hcase : (convert_250_to_mp4 none "b.250" "b.mp4" envTol).correction.isSome
    · rfl
    · exact absurd (h1.mp hcase) hno
  · refine h2.mpr ?_
    rw [show (1051/1000 : ℚ) - 1 = 51/1000 by norm_num,
      abs_of_pos (by norm_num : (0:ℚ) < 51/1000)]
    norm_num

/-- C1 counterexample: "video.250" is in the allowed raw-stream extension
set and its probe detects no audio, yet the first-pass command contains no
input-framing hint — in fact no input format tag at all. -/
theorem claim1_counterexample :
    isAllowedExt "video.250" = true
    ∧ env250.has_audio = false
    ∧ hasFramingHintAt "25" (convert_250_to_mp4 none "video.250" "video.mp4" env250).cmd
        = false
    ∧ "-f" ∉ (convert_250_to_mp4 none "video.250" "video.mp4" env250).cmd := by
  have hcmd : (convert_250_to_mp4 none "video.250" "video.mp4" env250).cmd
      = build_cmd_recode "video.250" "25" false "video.mp4" := by
    rw [convert_cmd]
    show build_cmd_recode "video.250" (format_fps_value (some (resolve none none).value))
        false "video.mp4" = build_cmd_recode "video.250" "25" false "video.mp4"
    rw [resolve_none_none]
    show build_cmd_recode "video.250" (format_fps_value (some 25)) false "video.mp4"
        = build_cmd_recode "video.250" "25" false "video.mp4"
    rw [format_fps_25]
  refine ⟨by decide, rfl, ?_, ?_⟩
  · rw [hcmd, hasFramingHintAt_build]
    decide
  · rw [hcmd]
    decide

/-- C1 amended: the first-pass command contains the input-framing block
exactly when the lowered source path ends in ".265", ".h265" or ".hevc" and
no audio was detected; a ".250" source never receives it, and a source with
audio never receives it. -/
theorem claim1_amended (src fps dst : String) (audio : Bool) :
    hasFramingHintAt fps (build_cmd_recode src fps audio dst)
      = ((endsWithStr (lowerStr src) ".265" || endsWithStr (lowerStr src) ".h265"
          || endsWithStr (lowerStr src) ".hevc") && !audio) :=
  hasFramingHintAt_build src fps dst audio

/-- C2 counterexample: the first pass exits zero and leaves an empty file,
the code reports success, but the spec-side predicate demanding a non-empty
output is false. -/
theorem claim2_counterexample :
    encode_ok envEmptyOut = true
    ∧ (convert_250_to_mp4 none "video.250" "video.mp4" envEmptyOut).ok = true
    ∧ envEmptyOut.encode_out_size = 0
    ∧ encode_success_per_spec envEmptyOut = false := by
  have he : encode_ok envEmptyOut = true := by simp [encode_ok, envEmptyOut]
  refine ⟨he, ?_, rfl, ?_⟩
  · rw [convert_ok_eq]
    exact he
  · simp [encode_success_per_spec, envEmptyOut]

/-- C2 amended: the conversion reports success exactly when the encoder
exited zero and a file exists at the declared output path afterwards; the
file being non-empty is not part of the check. -/
theorem claim2_amended (t : Option ℤ) (s d : String) (e : Env) :
    ((convert_250_to_mp4 t s d e).ok = true
      ↔ (e.encode_rc = 0 ∧ e.encode_out_exists = true)) := by
  rw [convert_ok_eq]
  simp [encode_ok, Bool.and_eq_true, beq_iff_eq]

/-- C4 counterexample: the fix encode succeeds but the replace fails; the
correction stage returns with the temporary sibling file still present. -/
theorem claim4_counterexample :
    correct envReplaceFail = CorrectionOutcome.replaceFailed
    ∧ tmp_present_after_correction envReplaceFail = true
    ∧ (convert_250_to_mp4 none "rec.250" "rec.mp4" envReplaceFail).tmpPresent = true := by
  have hc : correct envReplaceFail = CorrectionOutcome.replaceFailed := by
    simp [correct, envReplaceFail]
  have hp : tmp_present_after_correction envReplaceFail = true := by
    simp [tmp_present_after_correction, envReplaceFail]
  refine ⟨hc, hp, ?_⟩
  have he : encode_ok envReplaceFail = true := by simp [encode_ok, envReplaceFail]
  have hv : validate envReplaceFail.frames envReplaceFail.out_duration
      (resolve none envReplaceFail.detected_fps).value
        = ValidationResult.result 30 36 (5/6) false := by
    show validate (some 750) (some 36) (resolve none (some 25)).value
        = ValidationResult.result 30 36 (5/6) false
    rw [resolve_none_detected 25 (by norm_num)]
    exact validate_scenC
  have hf := convert_fix none "rec.250" "rec.mp4" envReplaceFail he 30 36 (5/6) hv
  rw [hf.2.2.1, hp]

/-- C4 amended: the temporary file is absent when the stage returns exactly
when the fix encode left no file at the temporary path, or the fix exited
zero, left a file and the replace succeeded; after a failed replace, or a
failed fix encode that left a partial file, the temporary remains (it is
only deleted later with the per-cycle working directory). -/
theorem claim4_amended (e : Env) :
    tmp_present_after_correction e = false
      ↔ (e.fix_out_exists = false
          ∨ (e.fix_rc = 0 ∧ e.fix_out_exists = true ∧ e.replace_ok = true)) := by
  obtain ⟨df, ha, erc, eex, esz, fr, od, frc, fex, rok⟩ := e
  simp only [tmp_present_after_correction]
  by_cases h : frc = 0
  · subst h
    cases fex <;> cases rok <;> simp
  · have hb : (frc == 0) = false := beq_eq_false_iff_ne.mpr h
    cases fex <;> cases rok <;> simp [hb, h]

/-- C6 counterexample: frame count 750, rate 25 and a known actual duration
of exactly 0 make the script skip validation entirely; no result carrying
multiplier 1.0 is produced. -/
theorem claim6_counterexample :
    validate (some 750) (some 0) 25 = ValidationResult.skipped
    ∧ validate (some 750) (some 0) 25 ≠ ValidationResult.result 30 0 1 true := by
  have h := validate_zero_duration 750 25
  exact ⟨h, by rw [h]; simp⟩

/-- C6 amended: with a positive frame count, a positive resolved rate and a
non-zero known duration, the expected duration is frameCount/rate and the
multiplier is expected/actual for positive actual and 1.0 for negative
actual; an actual duration of exactly 0 skips validation like an absent one;
scenario C (750 frames, rate 25, actual 36) yields expected 30 and
multiplier 5/6 and triggers the correction. -/
theorem claim6_amended (n : ℤ) (d r : ℚ) (hn : 0 < n) (hr : 0 < r) :
    (0 < d → validate (some n) (some d) r
        = ValidationResult.result ((n : ℚ) / r) d (((n : ℚ) / r) / d)
            (decide (|((n : ℚ) / r) / d - 1| ≤ 1/20)))
    ∧ (d < 0 → validate (some n) (some d) r
        = ValidationResult.result ((n : ℚ) / r) d 1 true)
    ∧ validate (some n) (some 0) r = ValidationResult.skipped
    ∧ validate (some 750) (some 36) 25 = ValidationResult.result 30 36 (5/6) false
    ∧ (convert_250_to_mp4 none "c.250" "c.mp4" envScenC).validation
        = ValidationResult.result 30 36 (5/6) false
    ∧ (convert_250_to_mp4 none "c.250" "c.mp4" envScenC).correction.isSome = true := by
  have he : encode_ok envScenC = true := by simp [encode_ok, envScenC]
  have hv : validate envScenC.frames envScenC.out_duration
      (resolve none envScenC.detected_fps).value
        = ValidationResult.result 30 36 (5/6) false := by
    show validate (some 750) (some 36) (resolve none (some 25)).value
        = ValidationResult.result 30 36 (5/6) false
    rw [resolve_none_detected 25 (by norm_num)]
    exact validate_scenC
  have hf := convert_fix none "c.250" "c.mp4" envScenC he 30 36 (5/6) hv
  refine ⟨fun hd => validate_pos n d r hn hr hd,
          fun hd => validate_negdur n d r hn hr hd,
          validate_zero_duration n r,
          validate_scenC, hf.2.2.2.1, ?_⟩
  rw [hf.2.1]
  rfl

/-- Witness for C6: scenario C instantiates the positive-duration branch. -/
theorem claim6_witness :
    (0 : ℤ) < 750 ∧ (0 : ℚ) < 25 ∧ (0 : ℚ) < 36
    ∧ validate (some 750) (some 36) 25
        = ValidationResult.result (((750 : ℤ) : ℚ) / 25) 36 ((((750 : ℤ) : ℚ) / 25) / 36)
            (decide (|(((750 : ℤ) : ℚ) / 25) / 36 - 1| ≤ 1/20)) := by
  refine ⟨by norm_num, by norm_num, by norm_num, ?_⟩
  exact (claim6_amended 750 36 25 (by norm_num) (by norm_num)).1 (by norm_num)

/-- C9 counterexample: 23.999 sits exactly 1e-3 away from 24; the strict
less-than comparison fails and the formatter renders "23.999", not "24". -/
theorem claim9_counterexample :
    format_fps_value (some (23999/1000)) = "23.999"
    ∧ format_fps_value (some (23999/1000)) ≠ "24" := by
  exact ⟨format_23999, by rw [format_23999]; decide⟩

/-- C9 amended: a rate strictly within 1e-3 of an integer renders as that
integer, and when no integer is strictly within 1e-3 the three-decimal
rendering is used; format(25) = "25" and format(29.97) = "29.970" hold, but
the boundary value 23.999 renders as "23.999". -/
theorem claim9_amended (q : ℚ) :
    (∀ n : ℤ, |q - (n : ℚ)| < 1/1000 → format_fps_value (some q) = toString n)
    ∧ ((∀ n : ℤ, ¬ |q - (n : ℚ)| < 1/1000) → format_fps_value (some q) = fmt3 q)
    ∧ format_fps_value (some 25) = "25"
    ∧ format_fps_value (some (2997/100)) = "29.970"
    ∧ format_fps_value (some (23999/1000)) = "23.999" := by
  refine ⟨?_, ?_, format_fps_25, format_2997, format_23999⟩
  · intro n h
    have hp := pyRound_close q n h
    simp only [format_fps_value]
    rw [hp, if_pos h]
  · intro hno
    simp only [format_fps_value]
    rw [if_neg (hno (pyRound q))]

/-- Witness for C9: 25 is strictly within 1e-3 of the integer 25, while no
integer is strictly within 1e-3 of 29.97. -/
theorem claim9_witness :
    format_fps_value (some 25) = toString (25 : ℤ)
    ∧ format_fps_value (some (2997/100)) = fmt3 ((2997 : ℚ)/100) := by
  constructor
  · exact (claim9_amended 25).1 25 (by norm_num)
  · refine (claim9_amended (2997/100)).2.1 ?_
    intro n h
    obtain ⟨h1, h2⟩ := abs_lt.mp h
    have ha : (29 : ℤ) < n := by
      have : (29 : ℚ) < (n : ℚ) := by linarith
      exact_mod_cast this
    have hb : n < (30 : ℤ) := by
      have : (n : ℚ) < (30 : ℚ) := by linarith
      exact_mod_cast this
    omega
